import Mathlib

/-!
# Verification of the skyscanner subnet core (validator/miner flight-search protocol)

Shallow embedding of the repository's query-fan-out-and-reward core:

* `neurons/validator.py` — batch synthesis (`Validator.__init__` /
  `Validator.forward`): random market choice, sampling of two distinct
  airports, sub-query construction, batch dispatch, flattening of batch
  responses, price sort, profit computation `max(0, best_price - price)`,
  top-`limit` slice.
* `neurons/miner.py` — per-query fulfillment with mock fallback
  (`Miner.forward` / `Miner._mock_flight`) and the admission policy
  (`Miner.blacklist`).
* `template/protocol.py` — the declared pydantic schemas
  (`FlightSearchRequest`, `FlightSearchResponse`), modelled at the level
  of declared/required field names.

Pydantic semantics embedded explicitly: constructing a model while
omitting a field declared `Field(...)` (required, no default) raises
`ValidationError`, and reading an attribute that is not a declared field
raises `AttributeError`; both checks are threaded through every
construction and attribute-read site of the neuron code, in the source's
left-to-right keyword evaluation order.  Python floats carrying prices
and durations are embedded as rationals `ℚ` (no float-specific behaviour
is exercised by the code under verification); Python exceptions are
embedded as `Except String`.
-/

/-- One airport record as used by `Validator.forward`
(`origin['skyId']`, `origin['entityId']` in `validator.py`). -/
structure Airport where
  skyId : String
  entityId : String
deriving DecidableEq

/-- The values the validator code would read off the incoming
`FlightSearchRequest` synapse (`synapse.cabinClass`, `synapse.adults`,
`synapse.children`, `synapse.infants`, `synapse.locale`,
`synapse.currency`, `synapse.limit` and its date).  Whether each read is
legal is decided separately against the declared protocol schema
(`flightSearchRequestFields`). -/
structure SearchIntent where
  date : String
  cabinClass : String
  adults : Nat
  children : Nat
  infants : Nat
  locale : String
  currency : String
  limit : Nat
deriving DecidableEq

/-- One generated sub-query, as the `FlightSearchRequest(...)` call of
`Validator.forward` would produce it were the construction legal
(its keyword names are checked against the declared schema in
`synthesizeQuery`). -/
structure SubQuery where
  date : String
  origin : String
  originId : String
  destination : String
  destinationId : String
  cabinClass : String
  adults : Nat
  children : Nat
  infants : Nat
  currency : String
  market : String
deriving DecidableEq

/-- One `FlightSearchResponse` as declared in `template/protocol.py`
(the commented-out `category` field is omitted; `duration_duration` is the
declared duration field). -/
structure Offer where
  market : String
  price : ℚ
  currency : String
  departure_time : String
  arrival_time : String
  departure_city : String
  arrival_city : String
  stops : Int
  carrier : String
  duration_duration : ℚ
deriving DecidableEq

/-- A `FlightSearchBatchResponse.responses` payload: one list of offers per
sub-query position. -/
abbrev BatchResponse := List (List Offer)

/-- The random draws one loop iteration of `Validator.forward` consumes:
an index for `random.choice(self.markets)`, two indices feeding
`random.sample(self.airports, 2)`, and the string produced by
`generate_random_date()`. -/
structure Draw where
  mIdx : Nat
  aIdx : Nat
  bIdx : Nat
  date : String
deriving DecidableEq

/-! ## Protocol schema (field-name level)

`neurons/validator.py` and `neurons/miner.py` construct and read protocol
objects by keyword/attribute name, while `template/protocol.py` declares
the pydantic fields.  Pydantic raises a `ValidationError` whenever a field
declared with `Field(...)` (required, no default) is absent at
construction, and an `AttributeError` when an undeclared attribute is
read. -/

/-- The fields `template/protocol.py` declares on `FlightSearchRequest`
(the commented-out `originId`, `destinationId` and `locale` declarations
are not fields). -/
def flightSearchRequestFields : List String :=
  ["date", "departure_airport_code", "arrival_airport_code", "cabinClass",
   "adults", "children", "infants", "market", "currency"]

/-- The `FlightSearchRequest` fields declared with `Field(...)` and hence
required at construction. -/
def flightSearchRequestRequired : List String :=
  ["date", "departure_airport_code", "arrival_airport_code"]

/-- The fields `template/protocol.py` declares on `FlightSearchResponse`;
every one of them is declared with `Field(...)` and hence required. -/
def flightSearchResponseRequired : List String :=
  ["market", "price", "currency", "departure_time", "arrival_time",
   "departure_city", "arrival_city", "stops", "carrier", "duration_duration"]

/-- The keyword arguments `Validator.forward` passes to
`FlightSearchRequest(...)` in its default (`self.API = False`) branch
(`validator.py` lines 90-97). -/
def validatorQueryKwargs : List String :=
  ["date", "origin", "originId", "destination", "destinationId", "market"]

/-- The keyword arguments of the `self.API = True` construction branch
(`validator.py` lines 74-87). -/
def validatorQueryKwargsApi : List String :=
  ["date", "origin", "originId", "destination", "destinationId",
   "cabinClass", "adults", "children", "infants", "locale", "currency",
   "market"]

/-- The keyword arguments `Miner._mock_flight` passes to
`FlightSearchResponse(...)` (`miner.py` lines 141-153). -/
def mockFlightKwargs : List String :=
  ["market", "category", "price", "currency", "departure_time",
   "arrival_time", "departure_city", "arrival_city", "stops", "carrier",
   "duration_days"]

/-- The keyword arguments of the `FlightSearchResponse(...)` construction
in the successful-parse branch of `Miner.forward` (`miner.py` lines
104-116) — the same keyword set as the mock's. -/
def apiFlightKwargs : List String :=
  ["market", "category", "price", "currency", "departure_time",
   "arrival_time", "departure_city", "arrival_city", "stops", "carrier",
   "duration_days"]

/-- Pydantic required-field check at a construction site: the first
required field not supplied as a keyword, if any. -/
def missingRequired (required kwargs : List String) : Option String :=
  required.find? (fun f => !(kwargs.contains f))

/-- Pydantic attribute read against a declared schema: reading an
undeclared attribute raises `AttributeError`. -/
def readAttr (declaredFields : List String) (attr : String) : Except String Unit :=
  if declaredFields.contains attr then .ok () else .error ("AttributeError: " ++ attr)

/-- A sequence of attribute reads, in source order: the first undeclared
attribute raises. -/
def readAttrs (declaredFields : List String) : List String → Except String Unit
  | [] => .ok ()
  | a :: as =>
    match readAttr declaredFields a with
    | .error e => .error e
    | .ok _ => readAttrs declaredFields as

/-! ## Randomness primitives -/

/-- `random.choice(l)`: raises `IndexError` on an empty sequence, otherwise
returns an element at an arbitrary (oracle-supplied) position. -/
def randChoice {α : Type} (l : List α) (i : Nat) : Except String α :=
  if h : l.length = 0 then
    .error "IndexError: Cannot choose from an empty sequence"
  else
    .ok (l.get ⟨i % l.length, Nat.mod_lt _ (Nat.pos_of_ne_zero h)⟩)

/-- `random.sample(l, 2)`: raises `ValueError` when the population is
smaller than 2, otherwise returns the records at two distinct
(oracle-supplied) positions — distinct positions, not necessarily distinct
values. -/
def randSample2 {α : Type} (l : List α) (i j : Nat) : Except String (α × α) :=
  if h : l.length < 2 then
    .error "ValueError: Sample larger than population or is negative"
  else
    let n := l.length
    let i' := i % n
    let j'' := j % n
    let j' := if j'' = i' then (i' + 1) % n else j''
    .ok (l.get ⟨i', Nat.mod_lt _ (by omega)⟩,
         l.get ⟨j', by
           by_cases hc : j'' = i'
           · simp only [j', hc, if_pos rfl]
             exact Nat.mod_lt _ (by omega)
           · simp only [j', if_neg hc]
             exact Nat.mod_lt _ (by omega)⟩)

/-! ## Batch synthesis (`Validator.forward`, step 1) -/

/-- One iteration of the batch-generation loop of `Validator.forward`:
pick a random market, two distinct airport records, a random date, then
construct the sub-query with `FlightSearchRequest(...)`.  With
`api = true` the keyword evaluation first reads `synapse.cabinClass`,
`.adults`, `.children`, `.infants`, `.locale`, `.currency` off the
incoming synapse (gated by the declared schema); either way, pydantic's
required-field check runs against the keyword set actually supplied —
which omits the required `departure_airport_code` and
`arrival_airport_code`, so with the declared protocol the construction
raises `ValidationError`.  The `.ok` payloads record the sub-query the
construction would produce were it legal. -/
def synthesizeQuery (markets : List String) (airports : List Airport)
    (api : Bool) (intent : SearchIntent) (d : Draw) : Except String SubQuery :=
  match randChoice markets d.mIdx with
  | .error e => .error e
  | .ok market =>
    match randSample2 airports d.aIdx d.bIdx with
    | .error e => .error e
    | .ok (origin, destination) =>
      if api then
        match readAttrs flightSearchRequestFields
            ["cabinClass", "adults", "children", "infants", "locale", "currency"] with
        | .error e => .error e
        | .ok _ =>
          match missingRequired flightSearchRequestRequired validatorQueryKwargsApi with
          | some f => .error ("ValidationError: missing required field " ++ f)
          | none =>
            .ok { date := d.date
                  origin := origin.skyId, originId := origin.entityId
                  destination := destination.skyId, destinationId := destination.entityId
                  cabinClass := intent.cabinClass
                  adults := intent.adults, children := intent.children
                  infants := intent.infants
                  currency := intent.currency
                  market := market }
      else
        match missingRequired flightSearchRequestRequired validatorQueryKwargs with
        | some f => .error ("ValidationError: missing required field " ++ f)
        | none =>
          .ok { date := d.date
                origin := origin.skyId, originId := origin.entityId
                destination := destination.skyId, destinationId := destination.entityId
                cabinClass := "Economy"
                adults := 1, children := 0, infants := 0
                currency := "USD"
                market := market }

/-- `self.batch_size = min(len(self.markets), self.config.get('batch_size', 10))`. -/
def batchSize (markets : List String) (cfgBatch : Nat) : Nat :=
  min markets.length cfgBatch

/-- The `for _ in range(self.batch_size)` loop body, iterated over the
given iteration indices, each consuming its own random draws. -/
def synthLoop (markets : List String) (airports : List Airport) (api : Bool)
    (intent : SearchIntent) (draws : Nat → Draw) : List Nat → Except String (List SubQuery)
  | [] => .ok []
  | i :: is =>
    match synthesizeQuery markets airports api intent (draws i) with
    | .error e => .error e
    | .ok q =>
      match synthLoop markets airports api intent draws is with
      | .error e => .error e
      | .ok qs => .ok (q :: qs)

/-- Batch synthesis: `batch_size` iterations of the generation loop
(step 1 of `Validator.forward`). -/
def synthesizeBatch (markets : List String) (airports : List Airport)
    (cfgBatch : Nat) (api : Bool) (intent : SearchIntent) (draws : Nat → Draw) :
    Except String (List SubQuery) :=
  synthLoop markets airports api intent draws (List.range (batchSize markets cfgBatch))

/-! ## Aggregation, ranking and reward (`Validator.forward`, steps 3-5) -/

/-- List concatenation helper for the nested `extend` loops of step 3 of
`Validator.forward`. -/
def concatAll {α : Type} : List (List α) → List α
  | [] => []
  | l :: ls => l ++ concatAll ls

/-- Step 3 of `Validator.forward`: `for batch_resp in batch_responses:
for resp_list in batch_resp.responses: all_responses.extend(resp_list)` —
peers in dispatch order, sub-query positions in batch order. -/
def flattenResponses (brs : List BatchResponse) : List Offer :=
  concatAll (concatAll brs)

/-- Insertion step of a stable ascending sort keyed on `price`, the
behaviour of `all_responses.sort(key=lambda r: r.price)` (Python's sort is
stable and ascending). -/
def insertSorted (x : Offer) : List Offer → List Offer
  | [] => [x]
  | y :: ys => if x.price ≤ y.price then x :: y :: ys else y :: insertSorted x ys

/-- Stable ascending sort by price (step 4 of `Validator.forward`). -/
def sortOffers : List Offer → List Offer
  | [] => []
  | x :: xs => insertSorted x (sortOffers xs)

/-- `best_price = all_responses[0].price` (only evaluated on a non-empty,
already sorted list in the source). -/
def bestPrice : List Offer → ℚ
  | [] => 0
  | o :: _ => o.price

/-- The (offer, profit) pairs the reward loop of `Validator.forward`
passes to `self.backpropagate`: `profit = max(0.0, best_price - resp.price)`
for each response of the sorted list. -/
def rewardsOf (sorted : List Offer) : List (Offer × ℚ) :=
  sorted.map (fun r => (r, max 0 (bestPrice sorted - r.price)))

/-- The constraints `template/protocol.py` declares on
`FlightSearchResponse` fields: `stops` has `ge=0`, `duration_duration` has
`gt=0`; `price` carries no constraint. -/
def schemaValid (o : Offer) : Prop :=
  0 ≤ o.stops ∧ 0 < o.duration_duration

instance (o : Offer) : Decidable (schemaValid o) := by
  unfold schemaValid; infer_instance

/-- Step 5 of `Validator.forward`:
`return all_responses[:synapse.limit]`, evaluated against the declared
`FlightSearchRequest` schema of the incoming synapse (reading the
undeclared `limit` attribute raises).  Python slicing truncates to the
available length. -/
def takeTopLimit (declaredFields : List String) (limitVal : Nat)
    (sorted : List Offer) : Except String (List Offer) :=
  match readAttr declaredFields "limit" with
  | .error e => .error e
  | .ok _ => .ok (sorted.take limitVal)

/-- The full validator request cycle (`Validator.forward`): synthesize the
batch, flatten whatever batch responses came back, return `[]` when no
offers were collected, otherwise sort by price, compute the per-offer
profits handed to `backpropagate`, and return the first `synapse.limit`
sorted offers — an attribute read gated by the declared
`FlightSearchRequest` schema.  The `.ok` result pairs the applied rewards
with the returned offer list. -/
def validatorForward (markets : List String) (airports : List Airport)
    (cfgBatch : Nat) (intent : SearchIntent) (draws : Nat → Draw)
    (batchResponses : List BatchResponse) :
    Except String (List (Offer × ℚ) × List Offer) :=
  match synthesizeBatch markets airports cfgBatch false intent draws with
  | .error e => .error e
  | .ok _queries =>
    let allResponses := flattenResponses batchResponses
    if allResponses = [] then
      .ok ([], [])
    else
      let sorted := sortOffers allResponses
      match takeTopLimit flightSearchRequestFields intent.limit sorted with
      | .error e => .error e
      | .ok top => .ok (rewardsOf sorted, top)

/-! ## Miner fulfillment (`Miner.forward` / `Miner._mock_flight`)

The per-query value parameters (`marketVal`, `currencyVal`, `originVal`,
`destVal`, `randPrice`) stand for the values the gated attribute reads
(and `random.uniform(100, 2000)`) would produce; every read is checked
against the declared request schema before its value is used. -/

/-- `Miner._mock_flight`: the keyword evaluation reads `req.market`,
`req.currency`, `req.origin`, `req.destination` in that order (`miner.py`
lines 141-153), then `FlightSearchResponse(...)` runs pydantic's
required-field check against the supplied keyword set — which passes
`duration_days` but not the required `duration_duration`. -/
def mockFlight (reqFields : List String) (randPrice : ℚ)
    (marketVal currencyVal originVal destVal : String) : Except String Offer :=
  match readAttrs reqFields ["market", "currency", "origin", "destination"] with
  | .error e => .error e
  | .ok _ =>
    match missingRequired flightSearchResponseRequired mockFlightKwargs with
    | some f => .error ("ValidationError: missing required field " ++ f)
    | none => .ok { market := marketVal, price := randPrice, currency := currencyVal
                    departure_time := "now+5h", arrival_time := "now+10h"
                    departure_city := originVal, arrival_city := destVal
                    stops := 1, carrier := "MockAir", duration_duration := 1/2 }

/-- Parsing of a successful backend response (`miner.py` lines 96-117):
the slice bound `flight_json_list[: req.limit or 1]` reads the undeclared
`req.limit` first; each parsed item then constructs a
`FlightSearchResponse` whose keywords read `req.market`, `req.currency`,
`req.origin`, `req.destination` and supply `duration_days` instead of the
required `duration_duration`.  With the declared protocol schema the
final `.ok` (the `or 1` slice of the parsed offers) is unreachable. -/
def parseBackendFlights (reqFields : List String) (fl : List Offer) :
    Except String (List Offer) :=
  match readAttr reqFields "limit" with
  | .error e => .error e
  | .ok _ =>
    match readAttrs reqFields ["market", "currency", "origin", "destination"] with
    | .error e => .error e
    | .ok _ =>
      match missingRequired flightSearchResponseRequired apiFlightKwargs with
      | some f => .error ("ValidationError: missing required field " ++ f)
      | none => .ok (fl.take 1)

/-- The per-query body of the `for req in synapse.queries` loop in
`Miner.forward`.  With an API key, `query_params` (`miner.py` lines
71-79) reads `req.origin`, `req.originId`, `req.destination`,
`req.destinationId`, `req.date`, `req.market` before the HTTP call is
even attempted; a raising backend call (`requests.RequestException`,
caught at lines 119-122) falls back to `_mock_flight`, an empty parsed
list leaves the per-query list empty.  Without a key the mock is used
directly.  A still-empty list falls back to the mock (lines 128-129).
`backend` stands for the parsed offers of this query's Skyscanner call
(`Except.error` = the request raised). -/
def minerRespond (hasKey : Bool) (reqFields : List String)
    (backend : Except String (List Offer)) (randPrice : ℚ)
    (marketVal currencyVal originVal destVal : String) :
    Except String (List Offer) :=
  let attempt : Except String (List Offer) :=
    if hasKey then
      match readAttrs reqFields
          ["origin", "originId", "destination", "destinationId", "date", "market"] with
      | .error e => .error e
      | .ok _ =>
        match backend with
        | .error _ =>
          match mockFlight reqFields randPrice marketVal currencyVal originVal destVal with
          | .error e => .error e
          | .ok m => .ok [m]
        | .ok fl =>
          if fl = [] then .ok []
          else parseBackendFlights reqFields fl
    else
      match mockFlight reqFields randPrice marketVal currencyVal originVal destVal with
      | .error e => .error e
      | .ok m => .ok [m]
  match attempt with
  | .error e => .error e
  | .ok flights =>
    if flights = [] then
      match mockFlight reqFields randPrice marketVal currencyVal originVal destVal with
      | .error e => .error e
      | .ok m => .ok [m]
    else
      .ok flights

/-- `Miner.forward` over a batch of queries (one iteration index per
query): one offer list per query, in query order, collected into the
`FlightSearchBatchResponse.responses` payload. -/
def minerForward (hasKey : Bool) (reqFields : List String)
    (backend : Nat → Except String (List Offer)) (randPrice : Nat → ℚ)
    (marketVal currencyVal originVal destVal : String) :
    List Nat → Except String (List (List Offer))
  | [] => .ok []
  | i :: is =>
    match minerRespond hasKey reqFields (backend i) (randPrice i)
        marketVal currencyVal originVal destVal with
    | .error e => .error e
    | .ok fl =>
      match minerForward hasKey reqFields backend randPrice
          marketVal currencyVal originVal destVal is with
      | .error e => .error e
      | .ok rest => .ok (fl :: rest)

/-! ## Admission policy (`Miner.blacklist`) -/

/-- `Miner.blacklist`: a missing dendrite/hotkey is answered with
`(True, "Missing dendrite or hotkey")`; then
`uid = self.metagraph.hotkeys.index(synapse.dendrite.hotkey)` — which
raises `ValueError` for a hotkey not in the list — runs *before* the
`allow_non_registered` check; then the `force_validator_permit` check
indexes `validator_permit[uid]`. -/
def blacklist (allowNonRegistered forceValidatorPermit : Bool)
    (hotkeys : List String) (validatorPermit : List Bool)
    (caller : Option String) : Except String (Bool × String) :=
  match caller with
  | none => .ok (true, "Missing dendrite or hotkey")
  | some hk =>
    match hotkeys.indexOf? hk with
    | none => .error "ValueError: hotkey is not in list"
    | some uid =>
      if !allowNonRegistered && !(hotkeys.contains hk) then
        .ok (true, "Unrecognized hotkey")
      else if forceValidatorPermit then
        match validatorPermit[uid]? with
        | none => .error "IndexError: list index out of range"
        | some p =>
          if !p then .ok (true, "Non-validator hotkey")
          else .ok (false, "Hotkey recognized!")
      else
        .ok (false, "Hotkey recognized!")

/-! ## Helper lemmas about the stable price sort -/

theorem mem_insertSorted {x z : Offer} {l : List Offer} :
    z ∈ insertSorted x l ↔ z = x ∨ z ∈ l := by
  induction l with
  | nil => simp [insertSorted]
  | cons y ys ih =>
    simp only [insertSorted]
    split
    · simp [List.mem_cons]
    · simp only [List.mem_cons, ih]
      tauto

theorem pairwise_insertSorted {x : Offer} {l : List Offer}
    (h : List.Pairwise (fun a b => a.price ≤ b.price) l) :
    List.Pairwise (fun a b => a.price ≤ b.price) (insertSorted x l) := by
  induction l with
  | nil => simp [insertSorted]
  | cons y ys ih =>
    rw [List.pairwise_cons] at h
    simp only [insertSorted]
    split
    · rename_i hle
      refine List.Pairwise.cons ?_ (List.Pairwise.cons h.1 h.2)
      intro z hz
      rcases List.mem_cons.mp hz with rfl | hz'
      · exact hle
      · exact le_trans hle (h.1 z hz')
    · rename_i hgt
      push_neg at hgt
      refine List.Pairwise.cons ?_ (ih h.2)
      intro z hz
      rcases mem_insertSorted.mp hz with rfl | hz'
      · exact le_of_lt hgt
      · exact h.1 z hz'

theorem sortOffers_pairwise (l : List Offer) :
    List.Pairwise (fun a b => a.price ≤ b.price) (sortOffers l) := by
  induction l with
  | nil => simp [sortOffers]
  | cons x xs ih => exact pairwise_insertSorted ih

theorem insertSorted_perm (x : Offer) (l : List Offer) :
    List.Perm (insertSorted x l) (x :: l) := by
  induction l with
  | nil => rfl
  | cons y ys ih =>
    simp only [insertSorted]
    split
    · rfl
    · exact (ih.cons y).trans (List.Perm.swap x y ys)

theorem sortOffers_perm (l : List Offer) : List.Perm (sortOffers l) l := by
  induction l with
  | nil => rfl
  | cons x xs ih => exact (insertSorted_perm x (sortOffers xs)).trans (ih.cons x)

theorem filter_insertSorted (x : Offer) (l : List Offer) (k : ℚ) :
    (insertSorted x l).filter (fun o => o.price == k) =
      if x.price = k then x :: l.filter (fun o => o.price == k)
      else l.filter (fun o => o.price == k) := by
  induction l with
  | nil =>
    by_cases hx : x.price = k <;> simp [insertSorted, List.filter_cons, hx]
  | cons y ys ih =>
    simp only [insertSorted]
    split
    · rename_i hle
      by_cases hx : x.price = k <;> simp [List.filter_cons, hx]
    · rename_i hgt
      push_neg at hgt
      by_cases hx : x.price = k
      · have hy : ¬ y.price = k := by
          intro hy; rw [hx, ← hy] at hgt; exact lt_irrefl _ hgt
        simp [List.filter_cons, ih, hx, hy]
      · simp [List.filter_cons, ih, hx]

theorem filter_sortOffers (l : List Offer) (k : ℚ) :
    (sortOffers l).filter (fun o => o.price == k) =
      l.filter (fun o => o.price == k) := by
  induction l with
  | nil => rfl
  | cons x xs ih =>
    simp only [sortOffers, filter_insertSorted, ih, List.filter_cons]
    by_cases hx : x.price = k <;> simp [hx]

/-- A schema-valid offer with the given price. -/
def mkOffer (p : ℚ) : Offer :=
  { market := "US", price := p, currency := "USD", departure_time := "t1"
    arrival_time := "t2", departure_city := "NYC", arrival_city := "HNL"
    stops := 1, carrier := "Air", duration_duration := 1 }

def apAAA : Airport := ⟨"AAA", "1001"⟩

def apBBB : Airport := ⟨"BBB", "1002"⟩

def intentEx : SearchIntent :=
  { date := "2025-01-01", cabinClass := "Economy", adults := 1, children := 0
    infants := 0, locale := "en-US", currency := "USD", limit := 3 }

def drawsEx : Nat → Draw := fun _ => ⟨0, 0, 1, "2025-06-01"⟩

/-! ## Claims -/

/-- Claim C2 counterexample: the validator flattens and ranks the
collected offers with no validity filter, so a (schema-constructible)
offer with price ≤ 0 appears in the ranked output — refuting "every offer
in the ranked output has price > 0". -/
def negPriceOffer : Offer :=
  { market := "US", price := -1, currency := "USD", departure_time := "t1"
    arrival_time := "t2", departure_city := "NYC", arrival_city := "HNL"
    stops := 0, carrier := "Air", duration_duration := 1 }

def brsC2 : List BatchResponse := [[[negPriceOffer, mkOffer 5]]]

theorem ranking_keeps_nonpositive_price :
    schemaValid negPriceOffer ∧
    negPriceOffer ∈ sortOffers (flattenResponses brsC2) ∧
    negPriceOffer.price ≤ 0 := by
  refine ⟨by decide, by decide, by decide⟩

/-- Claim C2 amended: no validity filter runs before ranking — the ranked
output is a permutation of the flattened offers, so offers with
price ≤ 0 are not discarded; every ranked offer still has duration > 0
and stops ≥ 0 because the response schema enforces those bounds at
construction, and ranking is a total function that never crashes. -/
theorem ranking_no_filter_schema_bounds (brs : List BatchResponse)
    (h : ∀ o ∈ flattenResponses brs, schemaValid o) :
    List.Perm (sortOffers (flattenResponses brs)) (flattenResponses brs) ∧
    ∀ o ∈ sortOffers (flattenResponses brs), 0 ≤ o.stops ∧ 0 < o.duration_duration := by
  refine ⟨sortOffers_perm _, fun o ho => ?_⟩
  exact h o ((sortOffers_perm _).mem_iff.mp ho)

def brsC2W : List BatchResponse := [[[mkOffer 7]], [[mkOffer 3]]]

theorem ranking_no_filter_schema_bounds_witness :
    (∀ o ∈ flattenResponses brsC2W, schemaValid o) ∧
    (List.Perm (sortOffers (flattenResponses brsC2W)) (flattenResponses brsC2W) ∧
     ∀ o ∈ sortOffers (flattenResponses brsC2W), 0 ≤ o.stops ∧ 0 < o.duration_duration) :=
  ⟨by decide, ranking_no_filter_schema_bounds brsC2W (by decide)⟩

/-- Claim C3 (code evaluation): `Miner.blacklist` computes
`uid = self.metagraph.hotkeys.index(hotkey)` before the
`allow_non_registered` check, so an unknown hotkey with
`allow_non_registered=False` raises `ValueError` instead of returning
`(True, "Unrecognized hotkey")`; the second part of the claim — a
registered caller without a validator permit under
`force_validator_permit` is rejected with a distinct reason — does hold. -/
theorem blacklist_unknown_hotkey_raises :
    blacklist false true ["validatorA"] [true] (some "unknownB") =
      .error "ValueError: hotkey is not in list" ∧
    blacklist false true ["validatorA", "minerB"] [true, false] (some "minerB") =
      .ok (true, "Non-validator hotkey") :=
  ⟨rfl, rfl⟩

/-- Claim C4 (code evaluation): with the pricing backend raising for
every query of a 3-query batch, fulfillment raises
`AttributeError: origin` — with an API key the `query_params` dict reads
the undeclared `req.origin` before the HTTP call is even attempted, and
without one `_mock_flight` reads it at `departure_city=req.origin` —
instead of returning 3 non-empty offer lists; and even were those reads
legal, the fallback construction would still omit the required
`duration_duration` field (it passes `duration_days`), so no valid
fallback offer can ever be produced. -/
theorem miner_fallback_raises_attribute_error :
    "origin" ∉ flightSearchRequestFields ∧
    minerForward false flightSearchRequestFields
        (fun _ => .error "requests.RequestException: timeout") (fun _ => 500)
        "US" "USD" "NYCA" "HNL" [0, 1, 2] =
      .error "AttributeError: origin" ∧
    minerForward true flightSearchRequestFields
        (fun _ => .error "requests.RequestException: timeout") (fun _ => 500)
        "US" "USD" "NYCA" "HNL" [0, 1, 2] =
      .error "AttributeError: origin" ∧
    "duration_duration" ∈ flightSearchResponseRequired ∧
    "duration_duration" ∉ mockFlightKwargs :=
  ⟨by decide, rfl, rfl, by decide, by decide⟩

/-- Claim C5: for every collection of batch responses, the ranked output
is sorted ascending by price, and for every price value the equal-price
offers appear in the same relative order as in the flattened arrival
order (peers in dispatch order, sub-query positions in batch order):
the sort is stable. -/
theorem rank_sorted_and_stable (brs : List BatchResponse) (k : ℚ) :
    List.Pairwise (fun a b : Offer => a.price ≤ b.price)
      (sortOffers (flattenResponses brs)) ∧
    (sortOffers (flattenResponses brs)).filter (fun o => o.price == k) =
      (flattenResponses brs).filter (fun o => o.price == k) :=
  ⟨sortOffers_pairwise _, filter_sortOffers _ k⟩

/-- Claim C6 counterexample: with a non-empty market set and an empty
airport set, query synthesis raises `random.sample`'s `ValueError`
instead of returning an empty batch. -/
theorem synthesis_empty_airports_raises :
    synthesizeBatch ["US"] [] 10 false intentEx drawsEx =
      .error "ValueError: Sample larger than population or is negative" :=
  rfl

/-- Claim C6 amended: when the market set is empty — so the batch-size
bound `min(|markets|, configured_max)` is zero — or the configured bound
itself is zero, synthesis returns an empty batch and the request cycle
returns an empty result, with no exception; but an empty airport set
with a non-zero bound raises instead (see the counterexample). -/
theorem synthesis_empty_markets_empty_result (markets : List String)
    (airports : List Airport) (cfgBatch : Nat) (intent : SearchIntent)
    (draws : Nat → Draw) (h : markets = [] ∨ cfgBatch = 0) :
    synthesizeBatch markets airports cfgBatch false intent draws = .ok [] ∧
    validatorForward markets airports cfgBatch intent draws [] = .ok ([], []) := by
  have hb : batchSize markets cfgBatch = 0 := by
    rcases h with rfl | rfl <;> simp [batchSize]
  have hs : synthesizeBatch markets airports cfgBatch false intent draws = .ok [] := by
    simp [synthesizeBatch, hb, synthLoop]
  refine ⟨hs, ?_⟩
  simp [validatorForward, hs, flattenResponses, concatAll]

theorem synthesis_empty_markets_empty_result_witness :
    (([] : List String) = [] ∨ (10 : Nat) = 0) ∧
    (synthesizeBatch [] [apAAA] 10 false intentEx drawsEx = .ok [] ∧
     validatorForward [] [apAAA] 10 intentEx drawsEx [] = .ok ([], [])) :=
  ⟨Or.inl rfl,
   synthesis_empty_markets_empty_result [] [apAAA] 10 intentEx drawsEx (Or.inl rfl)⟩

/-- Claim C7 (code evaluation): the request cycle does not return an
empty result when zero peers respond — with a non-empty market set it
raises pydantic `ValidationError` while constructing the very first
sub-query (the `FlightSearchRequest(...)` call supplies neither of the
required `departure_airport_code` / `arrival_airport_code` fields),
before any dispatch or aggregation can happen.  The intended empty-result
path is reachable only with a zero batch bound. -/
theorem zero_responses_cycle_raises :
    "departure_airport_code" ∈ flightSearchRequestRequired ∧
    "departure_airport_code" ∉ validatorQueryKwargs ∧
    validatorForward ["US"] [apAAA, apBBB] 10 intentEx drawsEx [] =
      .error "ValidationError: missing required field departure_airport_code" :=
  ⟨by decide, by decide, rfl⟩

/-- Claim C8 (code evaluation): synthesis never produces the claimed
batch — at a non-empty market set and two distinct airport records with
bound 1 (so `B = min(|markets|, configured_max) = 1`), the
`FlightSearchRequest(...)` construction raises pydantic
`ValidationError` for the missing required `departure_airport_code`, so
no batch of length `B` (with or without distinct endpoints) is ever
generated for any bound ≥ 1. -/
theorem synthesis_never_produces_batch :
    2 ≤ ([apAAA, apBBB] : List Airport).length ∧
    ([apAAA, apBBB] : List Airport).Nodup ∧
    synthesizeBatch ["US"] [apAAA, apBBB] 1 false intentEx drawsEx =
      .error "ValidationError: missing required field departure_airport_code" :=
  ⟨by decide, by decide, rfl⟩

/-- Claim C9 (code evaluation): `Validator.forward` ends with
`return all_responses[:synapse.limit]`, but `template/protocol.py`
declares no `limit` field on `FlightSearchRequest`, so evaluating
`synapse.limit` raises `AttributeError` for every sorted candidate list
and every limit value the slice might use — the claimed top-M return
contract cannot be met by the declared intent schema. -/
theorem top_limit_slice_raises (sorted : List Offer) (limitVal : Nat) :
    "limit" ∉ flightSearchRequestFields ∧
    takeTopLimit flightSearchRequestFields limitVal sorted =
      .error "AttributeError: limit" :=
  ⟨by decide, rfl⟩

/-- Claim C10 counterexample: at a concrete non-zero-bound input the
validator generates no sub-queries at all — batch synthesis raises
pydantic `ValidationError` at the `FlightSearchRequest` construction —
refuting "generated sub-queries always use the protocol defaults", which
presupposes sub-queries are generated. -/
theorem no_subqueries_generated :
    synthesizeBatch ["FR"] [apAAA, apBBB] 2 false
      { date := "2025-01-01", cabinClass := "Economy", adults := 1, children := 0
        infants := 0, locale := "en-US", currency := "USD", limit := 3 } drawsEx =
      .error "ValidationError: missing required field departure_airport_code" :=
  rfl

/-- Claim C10 amended: because the API flag is hard-coded to `False`,
batch synthesis never reads the intent's cabin class, passenger counts,
locale or currency: for any two incoming intents that agree outside
those fields, synthesis under the same random draws has the identical
outcome — though with a non-zero batch bound that common outcome is the
`ValidationError` raised at sub-query construction rather than a
generated batch (only a zero bound yields a generated, empty, batch). -/
theorem batch_independent_of_intent (markets : List String)
    (airports : List Airport) (cfgBatch : Nat) (draws : Nat → Draw)
    (s1 s2 : SearchIntent) (hdate : s1.date = s2.date)
    (hlimit : s1.limit = s2.limit) :
    synthesizeBatch markets airports cfgBatch false s1 draws =
      synthesizeBatch markets airports cfgBatch false s2 draws := by
  have hq : ∀ d, synthesizeQuery markets airports false s1 d =
      synthesizeQuery markets airports false s2 d := fun d => rfl
  have hloop : ∀ is, synthLoop markets airports false s1 draws is =
      synthLoop markets airports false s2 draws is := by
    intro is
    induction is with
    | nil => rfl
    | cons i is ih => simp only [synthLoop, hq, ih]
  simp only [synthesizeBatch, hloop]

def intentA : SearchIntent :=
  { date := "2025-01-01", cabinClass := "Economy", adults := 1, children := 0
    infants := 0, locale := "en-US", currency := "USD", limit := 3 }

def intentB : SearchIntent :=
  { date := "2025-01-01", cabinClass := "Business", adults := 2, children := 1
    infants := 1, locale := "fr-FR", currency := "EUR", limit := 3 }

theorem batch_independent_of_intent_witness :
    intentA.date = intentB.date ∧ intentA.limit = intentB.limit ∧
    synthesizeBatch ["US"] [apAAA, apBBB] 2 false intentA drawsEx =
      synthesizeBatch ["US"] [apAAA, apBBB] 2 false intentB drawsEx :=
  ⟨rfl, rfl,
   batch_independent_of_intent ["US"] [apAAA, apBBB] 2 drawsEx intentA intentB rfl rfl⟩
